import Mathlib

/-
  Verification development for the Aquarium gas-equilibrium model
  (src/Aquarium.py).

  The Python module computes over IEEE floats; we embed its arithmetic over
  the real numbers.  Python float division raises ZeroDivisionError when the
  denominator is exactly zero (it does not produce NaN for plain floats), so
  every operation that contains a division whose denominator can be zero is
  modelled as returning a pair (state, raised : Bool): the state holds every
  field assignment made before the raise, and raised = true marks that the
  operation aborted with ZeroDivisionError at that point, skipping the rest
  of its body.  The literal np.nan assigned to the headspace-concentration
  fields when headspace == 0 is modelled as Option.none.
-/

noncomputable section

-- Module-level constants of Aquarium.py.

def CO2_density : ℝ := 1964

def O2_density : ℝ := 1430

def CO2_solubility : ℝ := 1449

def O2_solubility : ℝ := 40

def CO2_ratio : ℝ := CO2_density / CO2_solubility

def O2_ratio : ℝ := O2_density / O2_solubility

def CO2_MW : ℝ := 44

def O2_MW : ℝ := 32

def DCO2 : ℝ := 1.91

def DO2 : ℝ := 2.42

def Dr : ℝ := DO2 / DCO2

namespace Utils

def M_to_ppm (M mw : ℝ) : ℝ := M * mw * 1000

def first_order_CO2 (time D CO2_eq CO2_start : ℝ) : ℝ :=
  (CO2_start - CO2_eq) * Real.exp (-D * time) + CO2_eq

def first_order_H (time D H_eq H_start : ℝ) : ℝ :=
  (H_start - H_eq) * Real.exp (-D * time) + H_eq

def ppm_to_molar (ppm mw : ℝ) : ℝ :=
  let mass := ppm * 1e-3
  mass / mw

def KH_to_HCO3 (KH : ℝ) : ℝ :=
  let ppm := 21.8 * KH
  let molar := ppm_to_molar ppm 61.0168
  molar

def get_HCO3_from_alk (alk pH pK2 : ℝ) : ℝ :=
  let pH_diff := pK2 - pH
  let HCO3_CO3_ratio := (10 : ℝ) ^ pH_diff
  let HCO3 := (alk * HCO3_CO3_ratio) / (1 + HCO3_CO3_ratio)
  HCO3

/-- np.log10, np.power(10, x) are modelled by Real.logb 10 and real rpow.
The Python signature has defaults pK1=6.52, pK2=10.3; call sites that rely
on the defaults pass them explicitly here. -/
def pH_to_CO2 (pH KH pK1 pK2 : ℝ) : ℝ :=
  let HCO3 := KH_to_HCO3 KH
  let HCO3_corrected := get_HCO3_from_alk HCO3 pH pK2
  let log10_CO2 := pK1 + Real.logb 10 HCO3_corrected - pH
  let CO2 := (10 : ℝ) ^ log10_CO2
  CO2 * 44 * 1e3

/-- The inverse direction: derives HCO3 from hardness only (the
alkalinity correction line is commented out in the source). -/
def CO2_to_pH (CO2 KH pK1 pK2 : ℝ) : ℝ :=
  let HCO3 := KH_to_HCO3 KH
  let CO2m := CO2 / (44 * 1e3)
  let pH := pK1 + Real.logb 10 (HCO3 / CO2m)
  pH

end Utils

/-- pandas DataFrame.round(3): round half to even at the third decimal. -/
def round_half_to_even (x : ℝ) : ℤ :=
  if Int.fract x < 1/2 then Int.floor x
  else if 1/2 < Int.fract x then Int.floor x + 1
  else if Even (Int.floor x) then Int.floor x else Int.floor x + 1

def round3 (x : ℝ) : ℝ := (round_half_to_even (x * 1000) : ℝ) / 1000

/-- The 3x5 table built by Tank.data_to_df: rows headspace / water / total,
columns CO2 (mg/l), CO2 (mg), O2 (mg/l), O2 (mg), pH.  A cell holding
np.nan is Option.none. -/
structure Report where
  h_CO2_conc : Option ℝ
  h_CO2_mg : Option ℝ
  h_O2_conc : Option ℝ
  h_O2_mg : Option ℝ
  h_pH : Option ℝ
  w_CO2_conc : Option ℝ
  w_CO2_mg : Option ℝ
  w_O2_conc : Option ℝ
  w_O2_mg : Option ℝ
  w_pH : Option ℝ
  t_CO2_conc : Option ℝ
  t_CO2_mg : Option ℝ
  t_O2_conc : Option ℝ
  t_O2_mg : Option ℝ
  t_pH : Option ℝ

/-- DataFrame.round(3) applied cell-wise; np.nan cells stay np.nan. -/
def Report.round (r : Report) : Report :=
  ⟨Option.map round3 r.h_CO2_conc, Option.map round3 r.h_CO2_mg,
   Option.map round3 r.h_O2_conc, Option.map round3 r.h_O2_mg,
   Option.map round3 r.h_pH,
   Option.map round3 r.w_CO2_conc, Option.map round3 r.w_CO2_mg,
   Option.map round3 r.w_O2_conc, Option.map round3 r.w_O2_mg,
   Option.map round3 r.w_pH,
   Option.map round3 r.t_CO2_conc, Option.map round3 r.t_CO2_mg,
   Option.map round3 r.t_O2_conc, Option.map round3 r.t_O2_mg,
   Option.map round3 r.t_pH⟩

def emptyReport : Report :=
  ⟨none, none, none, none, none, none, none, none, none, none,
   none, none, none, none, none⟩

/-- The Tank object's attributes.  A Python instance starts with no
attributes; Tank.empty below supplies placeholder values for fields that
__init__ has not yet assigned (they are only ever visible on an aborted
construction, which no theorem relies on). -/
@[ext]
structure Tank where
  volume : ℝ
  headspace : ℝ
  KH : ℝ
  CO2_mass_ratio : ℝ
  O2_mass_ratio : ℝ
  CO2_water_concentration : ℝ
  CO2_water_amount : ℝ
  CO2_headspace_amount : ℝ
  CO2_total_amount : ℝ
  CO2_total_concentration : ℝ
  CO2_headspace_concentration : Option ℝ
  O2_water_concentration : ℝ
  O2_water_amount : ℝ
  O2_headspace_amount : ℝ
  O2_total_amount : ℝ
  O2_total_concentration : ℝ
  O2_headspace_concentration : Option ℝ
  O2_amount_ratio : ℝ
  data : Report

def Tank.empty : Tank :=
  ⟨0, 0, 0, 0, 0, 0, 0, 0, 0, 0, none, 0, 0, 0, 0, 0, none, 0, emptyReport⟩

/-- Tank.get_CO2_values_from_conc.  The division by (volume + headspace)
raises when that sum is zero; the division by headspace is guarded by the
source's own `if headspace > 0` test. -/
def Tank.get_CO2_values_from_conc (t : Tank) : Tank × Bool :=
  let t := { t with CO2_water_amount := t.CO2_water_concentration * t.volume }
  let t := { t with CO2_headspace_amount := (CO2_ratio * t.CO2_water_concentration) * t.headspace }
  let t := { t with CO2_total_amount := t.CO2_water_amount + t.CO2_headspace_amount }
  if t.volume + t.headspace = 0 then (t, true) else
  let t := { t with CO2_total_concentration := t.CO2_total_amount / (t.volume + t.headspace) }
  if 0 < t.headspace then
    ({ t with CO2_headspace_concentration := some (t.CO2_headspace_amount / t.headspace) }, false)
  else
    ({ t with CO2_headspace_concentration := none }, false)

/-- Tank.get_O2_values_from_conc.  The final line divides by
O2_water_amount with no guard: when that is exactly zero Python raises
ZeroDivisionError, leaving every earlier assignment in place and
O2_amount_ratio untouched. -/
def Tank.get_O2_values_from_conc (t : Tank) : Tank × Bool :=
  let t := { t with O2_water_amount := t.O2_water_concentration * t.volume }
  let t := { t with O2_headspace_amount := (O2_ratio * t.O2_water_concentration) * t.headspace }
  let t := { t with O2_total_amount := t.O2_water_amount + t.O2_headspace_amount }
  if t.volume + t.headspace = 0 then (t, true) else
  let t := { t with O2_total_concentration := t.O2_total_amount / (t.volume + t.headspace) }
  let t := if 0 < t.headspace then
             { t with O2_headspace_concentration := some (t.O2_headspace_amount / t.headspace) }
           else
             { t with O2_headspace_concentration := none }
  if t.O2_water_amount = 0 then (t, true)
  else ({ t with O2_amount_ratio := t.O2_headspace_amount / t.O2_water_amount }, false)

/-- Tank.data_to_df: assembles the 3x5 table from the current fields,
rounds it to 3 decimals, and stores it in self.data.  The pH cell is
defined only on the water row, via Utils.CO2_to_pH with default pK values. -/
def Tank.data_to_df (t : Tank) : Tank :=
  let raw : Report :=
    ⟨t.CO2_headspace_concentration, some t.CO2_headspace_amount,
     t.O2_headspace_concentration, some t.O2_headspace_amount, none,
     some t.CO2_water_concentration, some t.CO2_water_amount,
     some t.O2_water_concentration, some t.O2_water_amount,
     some (Utils.CO2_to_pH t.CO2_water_concentration t.KH 6.52 10.3),
     some t.CO2_total_concentration, some t.CO2_total_amount,
     some t.O2_total_concentration, some t.O2_total_amount, none⟩
  { t with data := raw.round }

/-- Tank.__repr__ refreshes self.data before rendering; its effect on the
state is exactly a data_to_df call. -/
def Tank.repr (t : Tank) : Tank := t.data_to_df

/-- Tank.__init__.  The mass-ratio lines divide by solubility * volume,
which raises when volume = 0; then the two derivation calls run, and
finally data_to_df builds the report. -/
def Tank.init (volume headspace KH room_CO2_equilibrium room_O2_equilibrium : ℝ) :
    Tank × Bool :=
  let t := { Tank.empty with volume := volume, headspace := headspace, KH := KH }
  if CO2_solubility * t.volume = 0 then (t, true) else
  let t := { t with CO2_mass_ratio := (CO2_density * t.headspace) / (CO2_solubility * t.volume) }
  if O2_solubility * t.volume = 0 then (t, true) else
  let t := { t with O2_mass_ratio := (O2_density * t.headspace) / (O2_solubility * t.volume) }
  let t := { t with CO2_water_concentration := room_CO2_equilibrium }
  let r := t.get_CO2_values_from_conc
  if r.2 then (r.1, true) else
  let t := { r.1 with O2_water_concentration := room_O2_equilibrium }
  let r := t.get_O2_values_from_conc
  if r.2 then (r.1, true) else
  (r.1.data_to_df, false)

/-- Tank.use_O2.  Tentative subtraction with rollback when the new total
would be negative; otherwise stoichiometric CO2 production, redistribution
of the new totals through 1 + mass_ratio, and a full re-derivation for both
gases.  self.data is not refreshed here. -/
def Tank.use_O2 (t : Tank) (O2_used RQ : ℝ) : Tank × Bool :=
  let t := { t with O2_total_amount := t.O2_total_amount - O2_used }
  if t.O2_total_amount < 0 then
    ({ t with O2_total_amount := t.O2_total_amount + O2_used }, false)
  else
    let CO2_produced := (Utils.M_to_ppm RQ CO2_MW / Utils.M_to_ppm 1 O2_MW) * O2_used
    let t := { t with CO2_total_amount := t.CO2_total_amount + CO2_produced }
    if (1 : ℝ) + t.O2_mass_ratio = 0 then (t, true) else
    let t := { t with O2_water_amount := t.O2_total_amount / (1 + t.O2_mass_ratio) }
    if t.volume = 0 then (t, true) else
    let t := { t with O2_water_concentration := t.O2_water_amount / t.volume }
    let r := t.get_O2_values_from_conc
    if r.2 then (r.1, true) else
    if (1 : ℝ) + r.1.CO2_mass_ratio = 0 then (r.1, true) else
    let t := { r.1 with CO2_water_amount := r.1.CO2_total_amount / (1 + r.1.CO2_mass_ratio) }
    if t.volume = 0 then (t, true) else
    let t := { t with CO2_water_concentration := t.CO2_water_amount / t.volume }
    t.get_CO2_values_from_conc

/-- The structural relations that hold between a Tank's fields whenever a
construction or a consumption call has completed without raising:
the mass ratios record the construction-time geometry and every derived
amount is the stated function of the authoritative water concentration. -/
def TankConsistent (t : Tank) : Prop :=
  t.volume ≠ 0 ∧
  t.CO2_mass_ratio = (CO2_density * t.headspace) / (CO2_solubility * t.volume) ∧
  t.O2_mass_ratio = (O2_density * t.headspace) / (O2_solubility * t.volume) ∧
  t.CO2_water_amount = t.CO2_water_concentration * t.volume ∧
  t.CO2_headspace_amount = (CO2_ratio * t.CO2_water_concentration) * t.headspace ∧
  t.CO2_total_amount = t.CO2_water_amount + t.CO2_headspace_amount ∧
  t.O2_water_amount = t.O2_water_concentration * t.volume ∧
  t.O2_headspace_amount = (O2_ratio * t.O2_water_concentration) * t.headspace ∧
  t.O2_total_amount = t.O2_water_amount + t.O2_headspace_amount

/-- States reachable by a completed construction followed by any sequence
of consumption calls, including calls that abort with ZeroDivisionError
(the Python object survives such a call with its partial updates). -/
inductive TankReachable : Tank → Prop where
| construct : ∀ v h k c o, (Tank.init v h k c o).2 = false →
    TankReachable (Tank.init v h k c o).1
| consume : ∀ t u rq, TankReachable t → TankReachable ((Tank.use_O2 t u rq).1)

/-- States reachable by a completed construction followed by consumption
calls none of which raises. -/
inductive TankReachableOk : Tank → Prop where
| construct : ∀ v h k c o, (Tank.init v h k c o).2 = false →
    TankReachableOk (Tank.init v h k c o).1
| consume : ∀ t u rq, TankReachableOk t → (Tank.use_O2 t u rq).2 = false →
    TankReachableOk ((Tank.use_O2 t u rq).1)

end

/-
  General lemmas: characterizations of the two derivation operations.
-/

theorem get_CO2_fst (t : Tank) :
    (t.get_CO2_values_from_conc).1 =
    { t with
        CO2_water_amount := t.CO2_water_concentration * t.volume,
        CO2_headspace_amount := CO2_ratio * t.CO2_water_concentration * t.headspace,
        CO2_total_amount := t.CO2_water_concentration * t.volume + CO2_ratio * t.CO2_water_concentration * t.headspace,
        CO2_total_concentration :=
          if t.volume + t.headspace = 0 then t.CO2_total_concentration
          else (t.CO2_water_concentration * t.volume + CO2_ratio * t.CO2_water_concentration * t.headspace) / (t.volume + t.headspace),
        CO2_headspace_concentration :=
          if t.volume + t.headspace = 0 then t.CO2_headspace_concentration
          else if 0 < t.headspace then some ((CO2_ratio * t.CO2_water_concentration * t.headspace) / t.headspace)
          else none } := by
  unfold Tank.get_CO2_values_from_conc
  dsimp only
  split_ifs <;> simp_all

theorem get_CO2_snd (t : Tank) :
    (t.get_CO2_values_from_conc).2 = false ↔ t.volume + t.headspace ≠ 0 := by
  unfold Tank.get_CO2_values_from_conc
  dsimp only
  split_ifs <;> simp_all

theorem get_O2_fst (t : Tank) :
    (t.get_O2_values_from_conc).1 =
    { t with
        O2_water_amount := t.O2_water_concentration * t.volume,
        O2_headspace_amount := O2_ratio * t.O2_water_concentration * t.headspace,
        O2_total_amount := t.O2_water_concentration * t.volume + O2_ratio * t.O2_water_concentration * t.headspace,
        O2_total_concentration :=
          if t.volume + t.headspace = 0 then t.O2_total_concentration
          else (t.O2_water_concentration * t.volume + O2_ratio * t.O2_water_concentration * t.headspace) / (t.volume + t.headspace),
        O2_headspace_concentration :=
          if t.volume + t.headspace = 0 then t.O2_headspace_concentration
          else if 0 < t.headspace then some ((O2_ratio * t.O2_water_concentration * t.headspace) / t.headspace)
          else none,
        O2_amount_ratio :=
          if t.volume + t.headspace = 0 then t.O2_amount_ratio
          else if t.O2_water_concentration * t.volume = 0 then t.O2_amount_ratio
          else (O2_ratio * t.O2_water_concentration * t.headspace) / (t.O2_water_concentration * t.volume) } := by
  unfold Tank.get_O2_values_from_conc
  dsimp only
  split_ifs <;> simp_all

theorem get_O2_snd (t : Tank) :
    (t.get_O2_values_from_conc).2 = false ↔
      t.volume + t.headspace ≠ 0 ∧ t.O2_water_concentration * t.volume ≠ 0 := by
  unfold Tank.get_O2_values_from_conc
  dsimp only
  split_ifs <;> simp_all

theorem get_CO2_data (t : Tank) : (t.get_CO2_values_from_conc).1.data = t.data := by
  unfold Tank.get_CO2_values_from_conc
  dsimp only
  split_ifs <;> rfl

theorem get_O2_data (t : Tank) : (t.get_O2_values_from_conc).1.data = t.data := by
  unfold Tank.get_O2_values_from_conc
  dsimp only
  split_ifs <;> rfl

theorem use_O2_data_stable (t : Tank) (u rq : ℝ) : (t.use_O2 u rq).1.data = t.data := by
  unfold Tank.use_O2
  dsimp only
  split_ifs <;> simp [get_CO2_data, get_O2_data]

/-
  The consistency invariant: established by a completed construction and
  preserved by every consumption call that does not raise.
-/

theorem init_consistent (v h k c o : ℝ)
    (hok : (Tank.init v h k c o).2 = false) :
    TankConsistent (Tank.init v h k c o).1 := by
  unfold Tank.init at hok ⊢
  dsimp only at hok ⊢
  split_ifs at hok ⊢ with h1 h2 h3 h4
  have hv : v ≠ 0 := by
    intro hv0
    exact h1 (by simp [hv0, CO2_solubility])
  unfold TankConsistent
  refine ⟨?_, ?_, ?_, ?_, ?_, ?_, ?_, ?_, ?_⟩ <;>
    simp only [get_CO2_fst, get_O2_fst, Tank.data_to_df] <;> exact hv

theorem use_O2_consistent (t : Tank) (u rq : ℝ) (ht : TankConsistent t)
    (hok : (t.use_O2 u rq).2 = false) :
    TankConsistent (t.use_O2 u rq).1 := by
  obtain ⟨hv, hm1, hm2, _, _, _, _, _, _⟩ := ht
  unfold Tank.use_O2 at hok ⊢
  dsimp only at hok ⊢
  split_ifs at hok ⊢ with h1 h2 h3 h4 h5 h6
  · rw [sub_add_cancel]
    exact ⟨hv, hm1, hm2, ‹_›, ‹_›, ‹_›, ‹_›, ‹_›, ‹_›⟩
  · simp only [get_CO2_fst, get_O2_fst]
    exact ⟨hv, hm1, hm2, rfl, rfl, rfl, rfl, rfl, rfl⟩

theorem reachableOk_consistent (t : Tank) (h : TankReachableOk t) :
    TankConsistent t := by
  induction h with
  | construct v hh k c o hok => exact init_consistent v hh k c o hok
  | consume s u rq hreach hok ih => exact use_O2_consistent s u rq ih hok

theorem consistent_partition (t : Tank) (h : TankConsistent t) :
    t.CO2_water_amount * (1 + t.CO2_mass_ratio) = t.CO2_total_amount ∧
    t.O2_water_amount * (1 + t.O2_mass_ratio) = t.O2_total_amount := by
  obtain ⟨hv, hm1, hm2, hw1, hh1, ht1, hw2, hh2, ht2⟩ := h
  constructor
  · rw [ht1, hw1, hh1, hm1]
    unfold CO2_ratio CO2_density CO2_solubility
    field_simp
    ring
  · rw [ht2, hw2, hh2, hm2]
    unfold O2_ratio O2_density O2_solubility
    field_simp
    ring

/-
  Rounding helper facts.
-/

theorem round3_intCast (n : ℤ) : round3 ((n : ℝ)) = (n : ℝ) := by
  unfold round3 round_half_to_even
  have h : ((n : ℝ)) * 1000 = ((n * 1000 : ℤ) : ℝ) := by push_cast; ring
  rw [h, Int.fract_intCast, Int.floor_intCast]
  rw [if_pos (by norm_num)]
  push_cast
  field_simp

theorem round3_nat (n : ℕ) : round3 ((n : ℝ)) = (n : ℝ) := by
  have h := round3_intCast (n : ℤ)
  push_cast at h
  exact h

/-
  A derivation call on a state whose O2 water concentration is zero always
  raises at the O2_amount_ratio division.
-/

theorem conc_zero_flag (s : Tank) (hconc : s.O2_water_concentration = 0) :
    (s.get_O2_values_from_conc).2 = true := by
  rcases hb : (s.get_O2_values_from_conc).2 with _ | _
  · rw [get_O2_snd] at hb
    exact absurd (by rw [hconc, zero_mul]) hb.2
  · rfl

/-
  Concrete evaluation facts for the default scenario tank
  Tank(volume=100, headspace=50, KH=4) with default equilibria.
-/

theorem init_defaults_flag : (Tank.init 100 50 4 0.58 8.24).2 = false := by
  norm_num [Tank.init, Tank.empty, Tank.get_CO2_values_from_conc,
    Tank.get_O2_values_from_conc, CO2_ratio, O2_ratio, CO2_density,
    CO2_solubility, O2_density, O2_solubility]

theorem init_defaults_volume : (Tank.init 100 50 4 0.58 8.24).1.volume = 100 := by
  norm_num [Tank.init, Tank.empty, Tank.get_CO2_values_from_conc,
    Tank.get_O2_values_from_conc, Tank.data_to_df, CO2_ratio, O2_ratio,
    CO2_density, CO2_solubility, O2_density, O2_solubility]

theorem init_defaults_O2_mass_ratio :
    (Tank.init 100 50 4 0.58 8.24).1.O2_mass_ratio = 143 / 8 := by
  norm_num [Tank.init, Tank.empty, Tank.get_CO2_values_from_conc,
    Tank.get_O2_values_from_conc, Tank.data_to_df, CO2_ratio, O2_ratio,
    CO2_density, CO2_solubility, O2_density, O2_solubility]

theorem init_defaults_O2_total :
    (Tank.init 100 50 4 0.58 8.24).1.O2_total_amount = 15553 := by
  norm_num [Tank.init, Tank.empty, Tank.get_CO2_values_from_conc,
    Tank.get_O2_values_from_conc, Tank.data_to_df, CO2_ratio, O2_ratio,
    CO2_density, CO2_solubility, O2_density, O2_solubility]

theorem use10_flag :
    ((Tank.init 100 50 4 0.58 8.24).1.use_O2 10 1).2 = false := by
  norm_num [Tank.init, Tank.empty, Tank.use_O2, Tank.get_CO2_values_from_conc,
    Tank.get_O2_values_from_conc, Tank.data_to_df, Utils.M_to_ppm,
    CO2_ratio, O2_ratio, CO2_density, CO2_solubility, O2_density, O2_solubility,
    CO2_MW, O2_MW]

/-
  Claim theorems.
-/

/-- C1: for Tank(volume=100, headspace=50, KH=4) with the default
equilibrium concentrations, use_O2(10, RQ=1) lowers O2_total_amount by
exactly 10 and raises CO2_total_amount by exactly 10 * (44/32) = 13.75,
the CO2 production being (M_to_ppm(RQ, CO2_MW) / M_to_ppm(1, O2_MW)) * O2_used. -/
theorem use_O2_stoichiometry_scenario :
    ((Tank.init 100 50 4 0.58 8.24).1.use_O2 10 1).1.O2_total_amount
      = (Tank.init 100 50 4 0.58 8.24).1.O2_total_amount - 10 ∧
    ((Tank.init 100 50 4 0.58 8.24).1.use_O2 10 1).1.CO2_total_amount
      = (Tank.init 100 50 4 0.58 8.24).1.CO2_total_amount + 10 * (44 / 32) := by
  constructor <;>
    norm_num [Tank.init, Tank.empty, Tank.use_O2, Tank.get_CO2_values_from_conc,
      Tank.get_O2_values_from_conc, Tank.data_to_df, Utils.M_to_ppm,
      CO2_ratio, O2_ratio, CO2_density, CO2_solubility, O2_density, O2_solubility,
      CO2_MW, O2_MW]

/-- C2: a consumption call with O2_used strictly greater than the current
O2_total_amount rolls the tentative subtraction back and returns with every
field of the Tank exactly as before the call (and no error raised). -/
theorem use_O2_noop_guard (t : Tank) (u rq : ℝ) (h : t.O2_total_amount < u) :
    t.use_O2 u rq = (t, false) := by
  unfold Tank.use_O2
  rw [if_pos (by simpa [sub_neg] using h)]
  simp

/-- C2 witness: the guard fires on a concrete tank with total O2 of 0 and
a request of 1, leaving the state unchanged. -/
theorem use_O2_noop_guard_witness :
    Tank.empty.O2_total_amount < 1 ∧ Tank.empty.use_O2 1 1 = (Tank.empty, false) :=
  ⟨by norm_num [Tank.empty], use_O2_noop_guard Tank.empty 1 1 (by norm_num [Tank.empty])⟩

/-- C3 counterexample: a state reachable by construction followed by a
consumption call (the call that consumes exactly the whole O2 total, which
aborts with ZeroDivisionError after having already added the stoichiometric
CO2 to CO2_total_amount) violates the CO2 conservation identity. -/
theorem conservation_violated_after_raise_cx :
    TankReachable (((Tank.init 100 50 4 0.58 8.24).1.use_O2 15553 1).1) ∧
    ((Tank.init 100 50 4 0.58 8.24).1.use_O2 15553 1).1.CO2_total_amount ≠
      ((Tank.init 100 50 4 0.58 8.24).1.use_O2 15553 1).1.CO2_water_amount +
      ((Tank.init 100 50 4 0.58 8.24).1.use_O2 15553 1).1.CO2_headspace_amount := by
  constructor
  · exact TankReachable.consume _ 15553 1
      (TankReachable.construct 100 50 4 0.58 8.24 init_defaults_flag)
  · norm_num [Tank.init, Tank.empty, Tank.use_O2, Tank.get_CO2_values_from_conc,
      Tank.get_O2_values_from_conc, Tank.data_to_df, Utils.M_to_ppm,
      CO2_ratio, O2_ratio, CO2_density, CO2_solubility, O2_density, O2_solubility,
      CO2_MW, O2_MW]

/-- C3 (amended): for every gas, the conservation identity
total_amount = water_amount + headspace_amount holds in every state reached
by a completed construction followed by any sequence of consumption calls
none of which raises ZeroDivisionError. -/
theorem conservation_on_ok_reachable (t : Tank) (h : TankReachableOk t) :
    t.CO2_total_amount = t.CO2_water_amount + t.CO2_headspace_amount ∧
    t.O2_total_amount = t.O2_water_amount + t.O2_headspace_amount := by
  obtain ⟨_, _, _, _, _, h6, _, _, h9⟩ := reachableOk_consistent t h
  exact ⟨h6, h9⟩

/-- C3 witness: the conservation identity holds at the concretely
constructed default tank. -/
theorem conservation_on_ok_reachable_witness :
    TankReachableOk (Tank.init 100 50 4 0.58 8.24).1 ∧
    ((Tank.init 100 50 4 0.58 8.24).1.CO2_total_amount
        = (Tank.init 100 50 4 0.58 8.24).1.CO2_water_amount
          + (Tank.init 100 50 4 0.58 8.24).1.CO2_headspace_amount ∧
      (Tank.init 100 50 4 0.58 8.24).1.O2_total_amount
        = (Tank.init 100 50 4 0.58 8.24).1.O2_water_amount
          + (Tank.init 100 50 4 0.58 8.24).1.O2_headspace_amount) :=
  ⟨TankReachableOk.construct 100 50 4 0.58 8.24 init_defaults_flag,
   conservation_on_ok_reachable _
     (TankReachableOk.construct 100 50 4 0.58 8.24 init_defaults_flag)⟩

/-- C4: after every consumption call that completes without raising, on a
state reachable through non-raising calls, the partition identity
water_amount * (1 + mass_ratio) = total_amount holds for both gases, the
mass ratios being the construction-time constants. -/
theorem partition_after_consumption (t : Tank) (u rq : ℝ)
    (hreach : TankReachableOk t) (hok : (t.use_O2 u rq).2 = false) :
    (t.use_O2 u rq).1.CO2_water_amount * (1 + (t.use_O2 u rq).1.CO2_mass_ratio)
        = (t.use_O2 u rq).1.CO2_total_amount ∧
    (t.use_O2 u rq).1.O2_water_amount * (1 + (t.use_O2 u rq).1.O2_mass_ratio)
        = (t.use_O2 u rq).1.O2_total_amount :=
  consistent_partition _
    (reachableOk_consistent _ (TankReachableOk.consume t u rq hreach hok))

/-- C4 witness: the partition identity after consuming 10 mg of O2 from the
default scenario tank. -/
theorem partition_after_consumption_witness :
    TankReachableOk (Tank.init 100 50 4 0.58 8.24).1 ∧
    ((Tank.init 100 50 4 0.58 8.24).1.use_O2 10 1).2 = false ∧
    (((Tank.init 100 50 4 0.58 8.24).1.use_O2 10 1).1.CO2_water_amount
        * (1 + ((Tank.init 100 50 4 0.58 8.24).1.use_O2 10 1).1.CO2_mass_ratio)
        = ((Tank.init 100 50 4 0.58 8.24).1.use_O2 10 1).1.CO2_total_amount ∧
     ((Tank.init 100 50 4 0.58 8.24).1.use_O2 10 1).1.O2_water_amount
        * (1 + ((Tank.init 100 50 4 0.58 8.24).1.use_O2 10 1).1.O2_mass_ratio)
        = ((Tank.init 100 50 4 0.58 8.24).1.use_O2 10 1).1.O2_total_amount) :=
  ⟨TankReachableOk.construct 100 50 4 0.58 8.24 init_defaults_flag, use10_flag,
   partition_after_consumption _ 10 1
     (TankReachableOk.construct 100 50 4 0.58 8.24 init_defaults_flag) use10_flag⟩

/-- C5 counterexample: immediately after a consumption call the stored
report still shows the pre-mutation O2 total (15553 rounded), while a fresh
data_to_df pass over the same state shows the post-mutation value (15543):
the stored view is stale, it is not regenerated by the mutation. -/
theorem stored_report_stale_cx :
    (((Tank.init 100 50 4 0.58 8.24).1.use_O2 10 1).1.data).t_O2_mg ≠
    ((((Tank.init 100 50 4 0.58 8.24).1.use_O2 10 1).1.data_to_df).data).t_O2_mg := by
  have e1 : (((Tank.init 100 50 4 0.58 8.24).1.use_O2 10 1).1.data).t_O2_mg
      = some (round3 15553) := by
    rw [use_O2_data_stable]
    norm_num [Tank.init, Tank.empty, Tank.get_CO2_values_from_conc,
      Tank.get_O2_values_from_conc, Tank.data_to_df, Report.round,
      CO2_ratio, O2_ratio, CO2_density, CO2_solubility, O2_density, O2_solubility]
  have e2 : ((((Tank.init 100 50 4 0.58 8.24).1.use_O2 10 1).1.data_to_df).data).t_O2_mg
      = some (round3 15543) := by
    norm_num [Tank.init, Tank.empty, Tank.use_O2, Tank.get_CO2_values_from_conc,
      Tank.get_O2_values_from_conc, Tank.data_to_df, Report.round, Utils.M_to_ppm,
      CO2_ratio, O2_ratio, CO2_density, CO2_solubility, O2_density, O2_solubility,
      CO2_MW, O2_MW]
  have r1 := round3_nat 15553
  have r2 := round3_nat 15543
  norm_num at r1 r2
  rw [e1, e2, r1, r2]
  intro hc
  exact absurd (Option.some.inj hc) (by norm_num)

/-- C5 (amended): the consumption operation never regenerates the stored
report: after any use_O2 call the stored report is exactly the one from
before the call (it is refreshed only by construction and by __repr__ via
data_to_df), so right after a mutation it is stale rather than fresh. -/
theorem use_O2_leaves_stored_report (t : Tank) (u rq : ℝ) :
    (t.use_O2 u rq).1.data = t.data :=
  use_O2_data_stable t u rq

/-- C6: the pH round trip CO2_to_pH(pH_to_CO2(pH, KH), KH) never returns
exactly pH (for hardness in the numeric domain KH > 0): the inverse skips
the alkalinity correction, leaving a strictly positive residual
log10(1 + 10^(pH - pK2)). -/
theorem pH_roundtrip_asymmetric (pH KH : ℝ) (hKH : 0 < KH) :
    Utils.CO2_to_pH (Utils.pH_to_CO2 pH KH 6.52 10.3) KH 6.52 10.3 ≠ pH := by
  unfold Utils.CO2_to_pH Utils.pH_to_CO2 Utils.KH_to_HCO3 Utils.get_HCO3_from_alk
    Utils.ppm_to_molar
  dsimp only
  set HCO3 : ℝ := 21.8 * KH * 1e-3 / 61.0168 with hH
  have hH0 : 0 < HCO3 := by rw [hH]; positivity
  set r : ℝ := (10 : ℝ) ^ ((10.3 : ℝ) - pH) with hr
  have hr0 : 0 < r := Real.rpow_pos_of_pos (by norm_num) _
  set Hc : ℝ := HCO3 * r / (1 + r) with hHc
  have hHc0 : 0 < Hc := by rw [hHc]; positivity
  set L : ℝ := 6.52 + Real.logb 10 Hc - pH with hL
  set C : ℝ := (10 : ℝ) ^ L with hC
  have hC0 : 0 < C := Real.rpow_pos_of_pos (by norm_num) _
  have hdiv : C * 44 * 1e3 / (44 * 1e3) = C := by
    field_simp
    ring
  rw [hdiv]
  have hlogC : Real.logb 10 C = L := Real.logb_rpow (by norm_num) (by norm_num)
  have hlt : Hc < HCO3 := by
    rw [hHc, div_lt_iff₀ (by linarith)]
    nlinarith
  have hlog_lt : Real.logb 10 Hc < Real.logb 10 HCO3 :=
    Real.logb_lt_logb (by norm_num) hHc0 hlt
  have hsplit : Real.logb 10 (HCO3 / C) = Real.logb 10 HCO3 - L := by
    rw [Real.logb_div hH0.ne' hC0.ne', hlogC]
  rw [hsplit, hL]
  intro hcontra
  nlinarith [hlog_lt]

/-- C6 witness: instantiated at pH = 7, KH = 4. -/
theorem pH_roundtrip_asymmetric_witness :
    (0 : ℝ) < 4 ∧
    Utils.CO2_to_pH (Utils.pH_to_CO2 7 4 6.52 10.3) 4 6.52 10.3 ≠ 7 :=
  ⟨by norm_num, pH_roundtrip_asymmetric 7 4 (by norm_num)⟩

/-- C7: constructing a tank with headspace = 0 (and nonzero volume) sets
the headspace concentration of each gas to the undefined np.nan marker,
with no error raised, while each headspace amount is exactly 0. -/
theorem zero_headspace_scenario (v k c o : ℝ) (hv : v ≠ 0) :
    (Tank.init v 0 k c o).1.CO2_headspace_concentration = none ∧
    (Tank.init v 0 k c o).1.CO2_headspace_amount = 0 ∧
    (Tank.init v 0 k c o).1.O2_headspace_concentration = none ∧
    (Tank.init v 0 k c o).1.O2_headspace_amount = 0 := by
  unfold Tank.init
  dsimp only
  split_ifs <;>
    simp_all [get_CO2_fst, get_O2_fst, Tank.data_to_df, Tank.empty,
      CO2_solubility, O2_solubility]

/-- C7 witness: instantiated at volume 100 with the default KH and
equilibrium concentrations. -/
theorem zero_headspace_scenario_witness :
    (100 : ℝ) ≠ 0 ∧
    ((Tank.init 100 0 13 0.58 8.24).1.CO2_headspace_concentration = none ∧
     (Tank.init 100 0 13 0.58 8.24).1.CO2_headspace_amount = 0 ∧
     (Tank.init 100 0 13 0.58 8.24).1.O2_headspace_concentration = none ∧
     (Tank.init 100 0 13 0.58 8.24).1.O2_headspace_amount = 0) :=
  ⟨by norm_num, zero_headspace_scenario 100 13 0.58 8.24 (by norm_num)⟩

/-- C8: each derivation operation is idempotent: running it twice in a row
without an intervening mutation produces exactly the same state and flag as
running it once, for both gases and every starting state. -/
theorem derivation_idempotent (t : Tank) :
    (t.get_CO2_values_from_conc).1.get_CO2_values_from_conc
        = t.get_CO2_values_from_conc ∧
    (t.get_O2_values_from_conc).1.get_O2_values_from_conc
        = t.get_O2_values_from_conc := by
  constructor
  · unfold Tank.get_CO2_values_from_conc
    dsimp only
    split_ifs <;> simp_all
  · unfold Tank.get_O2_values_from_conc
    dsimp only
    split_ifs <;> simp_all

/-- C9: ppm_to_molar(61.0168, 61.0168) is exactly 1e-3. -/
theorem ppm_to_molar_unit_check :
    Utils.ppm_to_molar 61.0168 61.0168 = 1e-3 := by
  unfold Utils.ppm_to_molar
  norm_num

/-- C10 counterexample: consuming exactly the whole O2 total of the default
scenario tank is accepted by the guard, but the call raises
ZeroDivisionError (flag true) at the O2_amount_ratio division 0/0 instead
of storing a NaN marker: O2_amount_ratio still holds its pre-call value. -/
theorem exact_depletion_raises_cx :
    ((Tank.init 100 50 4 0.58 8.24).1.use_O2 15553 1).2 = true ∧
    ((Tank.init 100 50 4 0.58 8.24).1.use_O2 15553 1).1.O2_amount_ratio
      = (Tank.init 100 50 4 0.58 8.24).1.O2_amount_ratio := by
  constructor <;>
    norm_num [Tank.init, Tank.empty, Tank.use_O2, Tank.get_CO2_values_from_conc,
      Tank.get_O2_values_from_conc, Tank.data_to_df, Utils.M_to_ppm,
      CO2_ratio, O2_ratio, CO2_density, CO2_solubility, O2_density, O2_solubility,
      CO2_MW, O2_MW]

/-- C10 (amended): the depletion guard is strict: with O2_used exactly
equal to O2_total_amount the subtraction is accepted, the O2 water,
headspace and total amounts are all set to zero, but the O2_amount_ratio
update 0/0 raises ZeroDivisionError (Python float division by zero raises,
it does not produce NaN), so O2_amount_ratio keeps its previous value and
the call aborts before the CO2 redistribution. -/
theorem use_O2_exact_depletion (t : Tank) (u rq : ℝ)
    (hv : t.volume ≠ 0) (hr : 1 + t.O2_mass_ratio ≠ 0)
    (hu : u = t.O2_total_amount) :
    (t.use_O2 u rq).2 = true ∧
    (t.use_O2 u rq).1.O2_water_amount = 0 ∧
    (t.use_O2 u rq).1.O2_headspace_amount = 0 ∧
    (t.use_O2 u rq).1.O2_total_amount = 0 ∧
    (t.use_O2 u rq).1.O2_amount_ratio = t.O2_amount_ratio := by
  subst hu
  unfold Tank.use_O2
  dsimp only
  rw [sub_self]
  rw [if_neg (by norm_num)]
  rw [if_neg hr, if_neg hv]
  rw [zero_div, zero_div]
  rw [if_pos (conc_zero_flag _ rfl)]
  rw [get_O2_fst]
  refine ⟨rfl, ?_, ?_, ?_, ?_⟩
  · dsimp only
    rw [zero_mul]
  · dsimp only
    rw [mul_zero, zero_mul]
  · dsimp only
    rw [mul_zero, zero_mul, zero_mul, add_zero]
  · dsimp only
    split_ifs <;> first | rfl | simp_all

/-- C10 witness: the amended statement instantiated on the default scenario
tank, whose O2 total is exactly 15553. -/
theorem use_O2_exact_depletion_witness :
    (Tank.init 100 50 4 0.58 8.24).1.volume ≠ 0 ∧
    1 + (Tank.init 100 50 4 0.58 8.24).1.O2_mass_ratio ≠ 0 ∧
    (15553 : ℝ) = (Tank.init 100 50 4 0.58 8.24).1.O2_total_amount ∧
    (((Tank.init 100 50 4 0.58 8.24).1.use_O2 15553 1).2 = true ∧
     ((Tank.init 100 50 4 0.58 8.24).1.use_O2 15553 1).1.O2_water_amount = 0 ∧
     ((Tank.init 100 50 4 0.58 8.24).1.use_O2 15553 1).1.O2_headspace_amount = 0 ∧
     ((Tank.init 100 50 4 0.58 8.24).1.use_O2 15553 1).1.O2_total_amount = 0 ∧
     ((Tank.init 100 50 4 0.58 8.24).1.use_O2 15553 1).1.O2_amount_ratio
        = (Tank.init 100 50 4 0.58 8.24).1.O2_amount_ratio) := by
  have h1 : (Tank.init 100 50 4 0.58 8.24).1.volume ≠ 0 := by
    rw [init_defaults_volume]; norm_num
  have h2 : 1 + (Tank.init 100 50 4 0.58 8.24).1.O2_mass_ratio ≠ 0 := by
    rw [init_defaults_O2_mass_ratio]; norm_num
  have h3 : (15553 : ℝ) = (Tank.init 100 50 4 0.58 8.24).1.O2_total_amount :=
    init_defaults_O2_total.symm
  exact ⟨h1, h2, h3, use_O2_exact_depletion _ 15553 1 h1 h2 h3⟩
